import Mathlib

/-!
Verification of the VocalCanvas widget-rendering kernel
(src/desktop_app/vocal_canvas_desktop.py, with the platform variant in
src/windows_app/vocal_canvas_windows.py).

The kernel is a small from-scratch vector UI toolkit: a rounded-rectangle
vertical-gradient painter, an interactive-control state machine
(enabled/hovered/pressed), a slider value model, and a dropdown with a
popup overlay.  Each Lean definition below is a shallow embedding of the
correspondingly named Python function or method; machine integers are
modelled as Int, Python floats as Rat where the computation is rational
and as Real where math.sqrt is involved, and Python str as String.
-/

namespace VocalCanvas

/-! ## Palette constants of the desktop module used below -/

def CARD_TOP : String := "#0565a4"

def CARD_BOTTOM : String := "#003a66"

def BORDER : String := "#00739e"

def SHADOW_COLOR : String := "#000000"

/-! ## Rounded-corner inset (`_rounded_inset`, identical in both variants)

The Python function computes, for a pixel row y of a shape of the given
height, how far the horizontal span is inset from the rectangle edge so
that the corners follow a circle of the given radius:

    if radius <= 0: return 0.0
    lower_bound = height - radius
    if y < radius: dy = radius - y
    elif y > lower_bound: dy = y - lower_bound
    else: return 0.0
    inside = max(0.0, float(radius * radius - dy * dy))
    return float(radius - math.sqrt(inside))
-/

/-- Shared tail of the two corner branches of the Python function:
radius - sqrt(max(0, radius^2 - dy^2)). -/
noncomputable def sqrtInset (radius dy : ℤ) : ℝ :=
  (radius : ℝ) - Real.sqrt (max 0 (((radius * radius - dy * dy : ℤ) : ℝ)))

/-- Embedding of _rounded_inset(y, height, radius). -/
noncomputable def rounded_inset (y height radius : ℤ) : ℝ :=
  if radius ≤ 0 then 0
  else
    if y < radius then sqrtInset radius (radius - y)
    else if y > height - radius then sqrtInset radius (y - (height - radius))
    else 0

/-! ## Interactive control state (`RoundedGradientButton`)

The desktop button keeps three booleans (_enabled, _hovered, _pressed) and
reacts to Enter/Leave/ButtonPress-1/ButtonRelease-1/space/Return events and
to set_enabled.  The windowing toolkit delivers Enter/Press events to the
widget only while the pointer is inside it, so a press event in the model
stands for a press with pointer containment. -/

structure ControlState where
  enabled : Bool
  hovered : Bool
  pressed : Bool
deriving DecidableEq, Repr

/-- Embedding of RoundedGradientButton.set_enabled: stores the flag and
forces hovered and pressed to False. -/
def set_enabled (e : Bool) (_s : ControlState) : ControlState :=
  { enabled := e, hovered := false, pressed := false }

/-- Embedding of RoundedGradientButton._on_enter. -/
def on_enter (s : ControlState) : ControlState :=
  if !s.enabled then s else { s with hovered := true }

/-- Embedding of RoundedGradientButton._on_leave. -/
def on_leave (s : ControlState) : ControlState :=
  { s with hovered := false, pressed := false }

/-- Embedding of RoundedGradientButton._on_press; num is the mouse button
number carried by the event. -/
def on_press (num : ℤ) (s : ControlState) : ControlState :=
  if !s.enabled || num ≠ 1 then s else { s with pressed := true }

/-- Pointer-inside-bounds test used by _on_release:
0 <= event.x <= width and 0 <= event.y <= height. -/
def inside_bounds (x y width height : ℤ) : Bool :=
  decide (0 ≤ x ∧ x ≤ width ∧ 0 ≤ y ∧ y ≤ height)

/-- Embedding of RoundedGradientButton._on_release: returns the new state
and whether self._command() was invoked. -/
def on_release (x y width height : ℤ) (s : ControlState) : ControlState × Bool :=
  if !s.enabled then (s, false)
  else
    let was_pressed := s.pressed
    let s1 := { s with pressed := false }
    if !was_pressed then (s1, false)
    else if inside_bounds x y width height then (s1, true)
    else (s1, false)

/-- Embedding of RoundedGradientButton._on_keyboard_invoke: fires the
command iff enabled; the state is untouched. -/
def on_keyboard_invoke (s : ControlState) : ControlState × Bool :=
  (s, s.enabled)

/-- Events a button instance reacts to (its tk bindings). -/
inductive ButtonEvent where
  | enter : ButtonEvent
  | leave : ButtonEvent
  | press (num : ℤ) : ButtonEvent
  | release (x y : ℤ) : ButtonEvent
  | keyboard : ButtonEvent
  | setEnabled (e : Bool) : ButtonEvent
deriving DecidableEq

/-- One event step of a button of the given size: the next state plus
whether the onActivate command fired. -/
def buttonStep (width height : ℤ) (ev : ButtonEvent) (s : ControlState) :
    ControlState × Bool :=
  match ev with
  | .enter => (on_enter s, false)
  | .leave => (on_leave s, false)
  | .press num => (on_press num s, false)
  | .release x y => on_release x y width height s
  | .keyboard => on_keyboard_invoke s
  | .setEnabled e => (set_enabled e s, false)

/-! ## Slider (`RoundedSlider`)

The slider maps a pointer x-coordinate inside its track to an integer
value.  Track geometry depends on the widget size (winfo_width/height,
modelled as the winW/winH arguments); the bound variable holds the current
value (the current argument). -/

namespace Slider

structure State where
  min_value : ℤ
  max_value : ℤ
  enabled : Bool
  dragging : Bool
deriving DecidableEq, Repr

/-- Embedding of RoundedSlider.__init__ restricted to the value model: the
constructor stores min_value and max_value exactly as given, performs no
validation and no clamping of the range, and cannot raise; this is
modelled by always returning Except.ok. -/
def init (min_value max_value : ℤ) : Except String State :=
  .ok { min_value := min_value, max_value := max_value, enabled := true, dragging := false }

/-- Embedding of RoundedSlider.set_enabled. -/
def set_enabled (e : Bool) (s : State) : State :=
  { s with enabled := e, dragging := false }

/-- Embedding of RoundedSlider._clamp_value. -/
def clamp_value (s : State) (value : ℤ) : ℤ :=
  max s.min_value (min s.max_value value)

/-- Embedding of RoundedSlider._track_bounds, returning
(left, right, y1, y2). -/
def track_bounds (winW winH : ℤ) : ℤ × ℤ × ℤ × ℤ :=
  let width := max 30 winW
  let height := max 20 winH
  let left : ℤ := 12
  let right := max (left + 1) (width - 12)
  let track_height : ℤ := 10
  let y1 := (height - track_height) / 2
  let y2 := y1 + track_height
  (left, right, y1, y2)

/-- Python round(): round half to even. -/
def pyRound (q : ℚ) : ℤ :=
  let f := ⌊q⌋
  let frac := q - f
  if frac < 1/2 then f
  else if 1/2 < frac then f + 1
  else if f % 2 = 0 then f else f + 1

/-- Embedding of RoundedSlider._x_to_value. -/
def x_to_value (s : State) (winW winH x : ℤ) : ℤ :=
  let b := track_bounds winW winH
  let left := b.1
  let right := b.2.1
  let ratio : ℚ := ((x - left : ℤ) : ℚ) / ((max 1 (right - left) : ℤ) : ℚ)
  let value := s.min_value + pyRound (max 0 (min 1 ratio) * ((s.max_value - s.min_value : ℤ) : ℚ))
  clamp_value s value

/-- Embedding of RoundedSlider._set_from_x: returns the content of the
bound variable afterwards (set only when the new value differs). -/
def set_from_x (s : State) (winW winH x current : ℤ) : ℤ :=
  if !s.enabled then current
  else
    let new_value := x_to_value s winW winH x
    if new_value ≠ current then new_value else current

/-- Embedding of RoundedSlider._on_pointer_down: next state plus the bound
variable content afterwards. -/
def on_pointer_down (s : State) (winW winH x current : ℤ) : State × ℤ :=
  if !s.enabled then (s, current)
  else
    let s1 := { s with dragging := true }
    (s1, set_from_x s1 winW winH x current)

/-- Embedding of RoundedSlider._on_pointer_move: the bound variable
content afterwards. -/
def on_pointer_move (s : State) (winW winH x current : ℤ) : ℤ :=
  if !s.enabled || !s.dragging then current
  else set_from_x s winW winH x current

end Slider

/-! ## Card paint entry point (`RoundedGradientCard._redraw`)

One redraw of the desktop card is modelled as the list of calls it makes
to _draw_rounded_vertical_gradient (each such call is what touches pixels
of the surface); colors are the tk hex strings. -/

structure GradientCall where
  x1 : ℤ
  y1 : ℤ
  x2 : ℤ
  y2 : ℤ
  radius : ℤ
  top_color : String
  bottom_color : String
  border_color : String
  border_width : ℤ
deriving DecidableEq, Repr

namespace Card

/-- Embedding of the desktop RoundedGradientCard._redraw: the gradient
paint calls it issues for a widget of the given size. -/
def redraw (width height radius shadow_offset : ℤ)
    (top_color bottom_color border_color shadow_color : String) : List GradientCall :=
  if width < 8 ∨ height < 8 then []
  else
    let x1 : ℤ := 1
    let y1 : ℤ := 1
    let x2 := width - 2 - shadow_offset
    let y2 := height - 2 - shadow_offset
    if x2 ≤ x1 + 2 ∨ y2 ≤ y1 + 2 then []
    else
      (if shadow_offset > 0 then
        [{ x1 := x1 + shadow_offset, y1 := y1 + shadow_offset,
           x2 := x2 + shadow_offset, y2 := y2 + shadow_offset,
           radius := radius, top_color := shadow_color,
           bottom_color := shadow_color, border_color := shadow_color,
           border_width := 0 }]
       else []) ++
      [{ x1 := x1, y1 := y1, x2 := x2, y2 := y2, radius := radius,
         top_color := top_color, bottom_color := bottom_color,
         border_color := border_color, border_width := 1 }]

end Card

/-! ## Dropdown (`RoundedDropdown`)

State of one dropdown instance: candidate list, the bound StringVar, the
three interaction flags, the popup (None or its placed geometry), whether
the window-scoped Button-1 listener is bound (_root_click_bindid is not
None), and the popup list scroll position (yview fraction). -/

structure PopupGeom where
  x : ℤ
  y : ℤ
  width : ℤ
  height : ℤ
deriving DecidableEq, Repr

/-- Popup placement computed inside RoundedDropdown._open_popup, from the
dropdown position (dx, dy) in the host, its size (dw, dh), the host
window size (hw, hh), the candidate count and self.max_popup_rows. -/
def popupGeom (dx dy dw dh hw hh nvalues maxRows : ℤ) : PopupGeom :=
  let width := max 260 dw
  let rows := min maxRows (max 1 nvalues)
  let popup_height := rows * 28 + 16
  let x0 := dx
  let y0 := dy + dh + 4
  let y1 := if y0 + popup_height > hh - 8 then max 8 (dy - popup_height - 4) else y0
  let x1 := if x0 + width > hw - 8 then max 8 (hw - width - 8) else x0
  let x2 := if x1 < 8 then 8 else x1
  { x := x2, y := y1, width := width, height := popup_height }

structure DropdownState where
  values : List String
  value : String
  enabled : Bool
  hovered : Bool
  pressed : Bool
  popup : Option PopupGeom
  rootClickBound : Bool
  scroll : ℚ
deriving DecidableEq, Repr

/-- Embedding of the Python str.strip() method: removes leading and
trailing whitespace characters. -/
def pyStrip (s : String) : String :=
  String.mk (((s.data.dropWhile Char.isWhitespace).reverse.dropWhile Char.isWhitespace).reverse)

namespace Dropdown

/-- Embedding of RoundedDropdown.close_popup: destroys the popup, clears
the popup and listbox references, and unbinds the window-scoped Button-1
listener, clearing _root_click_bindid. -/
def close_popup (s : DropdownState) : DropdownState :=
  { s with popup := none, rootClickBound := false }

/-- Embedding of RoundedDropdown._open_popup: silently does nothing while
disabled, with an empty candidate list, or with a popup already open;
otherwise places the popup, binds the window-scoped Button-1 listener and
resets the list scroll to the top (listbox.yview_moveto(0.0)). -/
def open_popup (dx dy dw dh hw hh maxRows : ℤ) (s : DropdownState) : DropdownState :=
  if !s.enabled || s.values.isEmpty || s.popup.isSome then s
  else
    { s with
      popup := some (popupGeom dx dy dw dh hw hh (s.values.length : ℤ) maxRows),
      rootClickBound := true,
      scroll := 0 }

/-- Embedding of RoundedDropdown._toggle_popup. -/
def toggle_popup (dx dy dw dh hw hh maxRows : ℤ) (s : DropdownState) : DropdownState :=
  if s.popup.isSome then close_popup s
  else open_popup dx dy dw dh hw hh maxRows s

/-- Embedding of RoundedDropdown.set_enabled: stores the flag, forces
hovered and pressed to False, and closes any open popup when disabling. -/
def set_enabled (e : Bool) (s : DropdownState) : DropdownState :=
  let s1 := { s with enabled := e, hovered := false, pressed := false }
  if !e then close_popup s1 else s1

/-- Embedding of RoundedDropdown._on_destroy. -/
def on_destroy (s : DropdownState) : DropdownState :=
  close_popup s

/-- Embedding of RoundedDropdown._on_escape (and _on_listbox_escape,
which is the same call). -/
def on_escape (s : DropdownState) : DropdownState :=
  close_popup s

/-- Embedding of RoundedDropdown._on_root_click; the two flags are the
results of the _widget_is_child_of ancestor walks for the clicked widget
against the dropdown itself and against its popup. -/
def on_root_click (inside_self inside_popup : Bool) (s : DropdownState) : DropdownState :=
  if s.popup.isNone then s
  else if inside_self then s
  else if inside_popup then s
  else close_popup s

/-- Embedding of RoundedDropdown._on_listbox_select; idx is the row index
obtained from curselection() or nearest(event.y), none when neither is
available. -/
def on_listbox_select (idx : Option ℤ) (s : DropdownState) : DropdownState :=
  if s.popup.isNone then close_popup s
  else
    match idx with
    | none => close_popup s
    | some index =>
      let s1 :=
        if 0 ≤ index ∧ index < (s.values.length : ℤ) then
          { s with value := (s.values.getD index.toNat) "" }
        else s
      close_popup s1

/-- Embedding of RoundedDropdown.set_values: replaces the candidate list;
clears the selection when the stripped current value is non-empty and not
among the new candidates. -/
def set_values (vals : List String) (s : DropdownState) : DropdownState :=
  let s1 := { s with values := vals }
  let selected := pyStrip s1.value
  if selected ≠ "" ∧ selected ∉ s1.values then { s1 with value := "" } else s1

end Dropdown

/-! ## Helper lemmas about the rounded-corner inset -/


lemma sqrtInset_nonneg (radius dy : ℤ) (hr : 0 ≤ radius) : 0 ≤ sqrtInset radius dy := by
  unfold sqrtInset
  have hle : Real.sqrt (max 0 (((radius * radius - dy * dy : ℤ) : ℝ))) ≤ (radius : ℝ) := by
    have h1 : (max 0 (((radius * radius - dy * dy : ℤ) : ℝ))) ≤ ((radius : ℝ)) ^ 2 := by
      have hdy : (0 : ℝ) ≤ ((dy : ℝ)) ^ 2 := sq_nonneg _
      have hrr : (0 : ℝ) ≤ ((radius : ℝ)) ^ 2 := sq_nonneg _
      have : (((radius * radius - dy * dy : ℤ) : ℝ)) = ((radius : ℝ)) ^ 2 - ((dy : ℝ)) ^ 2 := by
        push_cast; ring
      rw [this]
      exact max_le (by positivity) (by linarith)
    calc Real.sqrt (max 0 (((radius * radius - dy * dy : ℤ) : ℝ)))
        ≤ Real.sqrt (((radius : ℝ)) ^ 2) := Real.sqrt_le_sqrt h1
      _ = |(radius : ℝ)| := Real.sqrt_sq_eq_abs _
      _ = (radius : ℝ) := abs_of_nonneg (by exact_mod_cast hr)
  linarith

lemma sqrtInset_le (radius dy : ℤ) : sqrtInset radius dy ≤ (radius : ℝ) := by
  unfold sqrtInset
  have := Real.sqrt_nonneg (max 0 (((radius * radius - dy * dy : ℤ) : ℝ)))
  linarith

lemma rounded_inset_nonneg (y height radius : ℤ) (hr : 0 ≤ radius) :
    0 ≤ rounded_inset y height radius := by
  unfold rounded_inset
  split_ifs with h1 h2 h3
  · exact le_refl 0
  · exact sqrtInset_nonneg _ _ hr
  · exact sqrtInset_nonneg _ _ hr
  · exact le_refl 0

lemma rounded_inset_le (y height radius : ℤ) (hr : 0 ≤ radius) :
    rounded_inset y height radius ≤ (radius : ℝ) := by
  unfold rounded_inset
  split_ifs with h1 h2 h3
  · exact_mod_cast hr
  · exact sqrtInset_le _ _
  · exact sqrtInset_le _ _
  · exact_mod_cast hr

lemma rounded_inset_symm (y height radius : ℤ)
    (hhr : 2 * radius ≤ height) :
    rounded_inset y height radius = rounded_inset (height - y) height radius := by
  unfold rounded_inset
  split_ifs <;> first
    | rfl
    | omega
    | (congr 1; omega)

/-! ## Claim C1: slider construction with min >= max -/

/-- C1 counterexample: constructing a slider with min_value = 5 and
max_value = 3 (so min >= max) does not raise: it yields a usable slider
state with that range stored, refuting the claim that construction fails
fast for min >= max. -/
theorem slider_init_no_error_counterexample :
    (3 : ℤ) ≤ 5 ∧
    Slider.init 5 3 =
      Except.ok { min_value := 5, max_value := 3, enabled := true, dragging := false } :=
  ⟨by norm_num, rfl⟩

/-- C1 amended: RoundedSlider.__init__ performs no range validation at
all: for every pair (min_value, max_value), including pairs with
min_value >= max_value, construction succeeds without raising and stores
both bounds unchanged, so the range is never silently clamped at
construction time. -/
theorem slider_init_stores_range_unvalidated (min_value max_value : ℤ) :
    Slider.init min_value max_value =
      Except.ok { min_value := min_value, max_value := max_value,
                  enabled := true, dragging := false } :=
  rfl

/-! ## Claim C7: degenerate card paint geometry is a no-op -/

/-- C7: a paint request for a desktop card whose rectangle has width < 8
or height < 8 issues no gradient paint call at all, so no pixels of the
surface are painted; the redraw is a total function, so no error is
raised either. -/
theorem card_degenerate_redraw_noop (width height radius shadow_offset : ℤ)
    (top_color bottom_color border_color shadow_color : String)
    (h : width < 8 ∨ height < 8) :
    Card.redraw width height radius shadow_offset
      top_color bottom_color border_color shadow_color = [] := by
  unfold Card.redraw
  rw [if_pos h]

/-- C7 witness: a 5-pixel-wide card with the palette of the desktop page
card paints nothing. -/
theorem card_degenerate_redraw_noop_witness :
    Card.redraw 5 100 28 4 CARD_TOP CARD_BOTTOM BORDER SHADOW_COLOR = [] :=
  card_degenerate_redraw_noop 5 100 28 4 CARD_TOP CARD_BOTTOM BORDER SHADOW_COLOR
    (Or.inl (by norm_num))

/-! ## Claim C5: set_values and the selection invariant -/

/-- C5 counterexample: with a current value of one space character and a
new candidate list holding only Alice, the current value is non-empty and
not a member of the new list, so the claim requires the selection to
reset to empty; but set_values strips the value first, finds it falsy,
and leaves the selection unchanged at the one-space string. -/
theorem set_values_counterexample :
    (" " : String) ≠ "" ∧ (" " : String) ∉ (["Alice"] : List String) ∧
    (Dropdown.set_values ["Alice"]
      { values := ["Bob"], value := " ", enabled := true, hovered := false,
        pressed := false, popup := none, rootClickBound := false,
        scroll := 0 }).value = " " := by
  refine ⟨by decide, by decide, by decide⟩

/-- C5 amended: set_values(newList) replaces the candidate list, and acts
on the whitespace-stripped current value: if the stripped value is
non-empty and not a member of newList the selection is reset to the empty
selection, otherwise the stored value is left unchanged. -/
theorem set_values_spec (vals : List String) (s : DropdownState) :
    (Dropdown.set_values vals s).values = vals ∧
    (pyStrip s.value ≠ "" → pyStrip s.value ∉ vals →
      (Dropdown.set_values vals s).value = "") ∧
    (pyStrip s.value = "" ∨ pyStrip s.value ∈ vals →
      (Dropdown.set_values vals s).value = s.value) := by
  simp only [Dropdown.set_values]
  split_ifs with h
  · refine ⟨rfl, fun _ _ => rfl, ?_⟩
    rcases h with ⟨h1, h2⟩
    rintro (hc | hc)
    · exact absurd hc h1
    · exact absurd hc h2
  · refine ⟨rfl, ?_, fun _ => rfl⟩
    intro h1 h2
    exact absurd ⟨h1, h2⟩ h

/-- C5 witness: the scenario of the specification: a dropdown holding
Samantha whose candidates are replaced by the list of Daniel and Alex
ends with the empty selection. -/
theorem set_values_spec_witness :
    (Dropdown.set_values ["Daniel", "Alex"]
      { values := ["Daniel", "Samantha", "Alex"], value := "Samantha",
        enabled := true, hovered := false, pressed := false, popup := none,
        rootClickBound := false, scroll := 0 }).value = "" :=
  (set_values_spec ["Daniel", "Alex"]
    { values := ["Daniel", "Samantha", "Alex"], value := "Samantha",
      enabled := true, hovered := false, pressed := false, popup := none,
      rootClickBound := false, scroll := 0 }).2.1 (by decide) (by decide)

/-! ## Claim C2: button activation discipline -/

/-- C2: the button fires onActivate exactly once per completed
press-then-release-inside cycle and exactly once per keyboard activation
while enabled: a release fires iff the button is enabled, its pressed
flag is set, and the release point is inside the bounds (so nothing fires
on a release outside the bounds, on a release while disabled, or on a
release not preceded by a press); a second release immediately after any
release never fires because the pressed flag was cleared; keyboard
activation fires iff enabled and leaves the state untouched; a pointer
leave (drag-away) clears the pressed flag; and after a press while
enabled the following release fires exactly when it lands inside. -/
theorem button_fires_once (s : ControlState) (w h x y : ℤ) :
    ((buttonStep w h (.release x y) s).2 =
       (s.enabled && s.pressed && inside_bounds x y w h)) ∧
    (buttonStep w h (.release x y) (buttonStep w h (.release x y) s).1).2 = false ∧
    ((buttonStep w h .keyboard s).2 = s.enabled ∧ (buttonStep w h .keyboard s).1 = s) ∧
    (buttonStep w h .leave s).1.pressed = false ∧
    (s.enabled = true →
      (buttonStep w h (.release x y) (buttonStep w h (.press 1) s).1).2 =
        inside_bounds x y w h) := by
  obtain ⟨e, ho, p⟩ := s
  cases e <;> cases p <;> cases hb : inside_bounds x y w h <;>
    simp_all [buttonStep, on_release, on_press, on_keyboard_invoke, on_leave]

/-- C2 witness: an enabled, hovered, pressed button of size 100 x 40
released at the inside point (10, 10). -/
theorem button_fires_once_witness :
    (buttonStep 100 40 (.release 10 10)
      (buttonStep 100 40 (.press 1) ⟨true, true, false⟩).1).2 =
      inside_bounds 10 10 100 40 :=
  (button_fires_once ⟨true, true, false⟩ 100 40 10 10).2.2.2.2 rfl

/-! ## Claim C8: ControlState invariant -/

/-- C8: whenever a control is disabled through set_enabled(False), its
hovered and pressed flags are forced to false in the same step (shown for
the button and for the dropdown); and the pressed flag of a button only
turns from false to true through a ButtonPress-1 event, which the toolkit
delivers only while the pointer is contained in the widget, received
while the control is enabled. -/
theorem control_state_invariant (s : ControlState) (d : DropdownState)
    (w h : ℤ) (ev : ButtonEvent) :
    ((set_enabled false s).enabled = false ∧ (set_enabled false s).hovered = false ∧
      (set_enabled false s).pressed = false) ∧
    ((Dropdown.set_enabled false d).enabled = false ∧
      (Dropdown.set_enabled false d).hovered = false ∧
      (Dropdown.set_enabled false d).pressed = false) ∧
    (s.pressed = false → (buttonStep w h ev s).1.pressed = true →
      ev = ButtonEvent.press 1 ∧ s.enabled = true) := by
  refine ⟨⟨rfl, rfl, rfl⟩, ⟨rfl, rfl, rfl⟩, ?_⟩
  obtain ⟨e, ho, p⟩ := s
  intro hp
  cases ev with
  | press num =>
    intro hstep
    simp only [buttonStep, on_press] at hstep
    by_cases hcond : (!e || num ≠ 1) = true
    · rw [if_pos hcond] at hstep
      simp_all
    · rw [if_neg hcond] at hstep
      simp only [Bool.or_eq_true, Bool.not_eq_true', decide_eq_true_eq, not_or,
        Bool.not_eq_true, Decidable.not_not] at hcond
      simp [hcond.1, hcond.2]
  | enter => cases e <;> simp_all [buttonStep, on_enter]
  | leave => simp_all [buttonStep, on_leave]
  | release rx ry =>
    cases e <;> simp_all [buttonStep, on_release]
  | keyboard => simp_all [buttonStep, on_keyboard_invoke]
  | setEnabled b => simp_all [buttonStep, set_enabled]

/-- C8 witness: an enabled idle button pressed with mouse button 1. -/
theorem control_state_invariant_witness :
    ButtonEvent.press 1 = ButtonEvent.press 1 ∧
    (⟨true, false, false⟩ : ControlState).enabled = true :=
  (control_state_invariant ⟨true, false, false⟩
    ⟨[], "", true, false, false, none, false, 0⟩ 100 40 (.press 1)).2.2 rfl (by decide)

/-! ## Claim C3: every popup close path unbinds the window listener -/

/-- C3: on every popup close path of the dropdown — row selection,
Escape, outside click, set_enabled(False), owner destruction — the
window-scoped Button-1 listener is unbound and the popup reference is
cleared in the same step, and closing via Escape or via an outside click
leaves the current value unchanged. -/
theorem popup_close_paths (s : DropdownState) (idx : Option ℤ)
    (inside_self inside_popup : Bool) :
    ((Dropdown.on_escape s).popup = none ∧
      (Dropdown.on_escape s).rootClickBound = false ∧
      (Dropdown.on_escape s).value = s.value) ∧
    (inside_self = false → inside_popup = false → s.popup.isSome = true →
      (Dropdown.on_root_click inside_self inside_popup s).popup = none ∧
      (Dropdown.on_root_click inside_self inside_popup s).rootClickBound = false ∧
      (Dropdown.on_root_click inside_self inside_popup s).value = s.value) ∧
    ((Dropdown.set_enabled false s).popup = none ∧
      (Dropdown.set_enabled false s).rootClickBound = false) ∧
    ((Dropdown.on_destroy s).popup = none ∧
      (Dropdown.on_destroy s).rootClickBound = false) ∧
    ((Dropdown.on_listbox_select idx s).popup = none ∧
      (Dropdown.on_listbox_select idx s).rootClickBound = false) := by
  refine ⟨⟨rfl, rfl, rfl⟩, ?_, ⟨rfl, rfl⟩, ⟨rfl, rfl⟩, ?_⟩
  · intro h1 h2 h3
    subst h1; subst h2
    cases hp : s.popup with
    | none => rw [hp] at h3; simp at h3
    | some g =>
      simp [Dropdown.on_root_click, Dropdown.close_popup, hp]
  · cases hp : s.popup with
    | none => simp [Dropdown.on_listbox_select, Dropdown.close_popup, hp]
    | some g =>
      cases idx with
      | none => simp [Dropdown.on_listbox_select, Dropdown.close_popup, hp]
      | some i =>
        simp only [Dropdown.on_listbox_select, Dropdown.close_popup, hp]
        split_ifs <;> simp

/-- C3 witness: an open popup of a dropdown holding Alex, closed by a
click outside both the dropdown and the popup. -/
theorem popup_close_paths_witness :
    (Dropdown.on_root_click false false
      ⟨["Alex"], "Alex", true, false, false, some ⟨8, 8, 260, 44⟩, true, 0⟩).popup = none ∧
    (Dropdown.on_root_click false false
      ⟨["Alex"], "Alex", true, false, false, some ⟨8, 8, 260, 44⟩, true, 0⟩).rootClickBound = false ∧
    (Dropdown.on_root_click false false
      ⟨["Alex"], "Alex", true, false, false, some ⟨8, 8, 260, 44⟩, true, 0⟩).value =
      (⟨["Alex"], "Alex", true, false, false, some ⟨8, 8, 260, 44⟩, true, 0⟩ :
        DropdownState).value :=
  (popup_close_paths ⟨["Alex"], "Alex", true, false, false, some ⟨8, 8, 260, 44⟩, true, 0⟩
    none false false).2.1 rfl rfl rfl

/-! ## Claim C4: at most one popup, toggle semantics -/

/-- C4: a dropdown owns at most one popup at a time (the model, like the
code, has a single popup slot): activating while the popup is open closes
it and opens nothing else; activating while closed, enabled and with a
non-empty candidate list opens exactly the one placed popup; and
activation while disabled or with an empty candidate list is a silent
no-op returning the state unchanged (a total function, so no error is
raised). -/
theorem popup_toggle (dx dy dw dh hw hh maxRows : ℤ) (s : DropdownState) :
    (s.popup.isSome = true →
      Dropdown.toggle_popup dx dy dw dh hw hh maxRows s = Dropdown.close_popup s ∧
      (Dropdown.toggle_popup dx dy dw dh hw hh maxRows s).popup = none) ∧
    (s.popup = none → s.enabled = true → s.values ≠ [] →
      (Dropdown.toggle_popup dx dy dw dh hw hh maxRows s).popup =
        some (popupGeom dx dy dw dh hw hh (s.values.length : ℤ) maxRows)) ∧
    (s.popup = none → (s.enabled = false ∨ s.values = []) →
      Dropdown.toggle_popup dx dy dw dh hw hh maxRows s = s) := by
  refine ⟨?_, ?_, ?_⟩
  · intro h
    rw [Dropdown.toggle_popup, if_pos h]
    exact ⟨rfl, rfl⟩
  · intro hp he hv
    rw [Dropdown.toggle_popup, if_neg (by rw [hp]; simp)]
    rw [Dropdown.open_popup, if_neg ?_]
    simp only [he, hp, Bool.not_true, Bool.false_or, Option.isSome_none, Bool.or_false]
    exact fun hc => hv (List.isEmpty_iff.mp hc)
  · intro hp hd
    rw [Dropdown.toggle_popup, if_neg (by rw [hp]; simp)]
    rcases hd with hd | hd
    · rw [Dropdown.open_popup, if_pos (by rw [hd]; simp)]
    · rw [Dropdown.open_popup, if_pos (by rw [hd]; simp)]

/-- C4 witness: an enabled dropdown with one candidate and no open popup,
activated with its geometry inside a 600 x 600 host. -/
theorem popup_toggle_witness :
    (Dropdown.toggle_popup 0 10 40 34 600 600 10
      ⟨["Alex"], "", true, false, false, none, false, 0⟩).popup =
      some (popupGeom 0 10 40 34 600 600
        (((["Alex"] : List String).length : ℤ)) 10) :=
  (popup_toggle 0 10 40 34 600 600 10
    ⟨["Alex"], "", true, false, false, none, false, 0⟩).2.1 rfl rfl (by decide)

/-! ## Claim C6: slider values stay in range -/

lemma clamp_value_mem (s : Slider.State) (v : ℤ) (h : s.min_value ≤ s.max_value) :
    s.min_value ≤ Slider.clamp_value s v ∧ Slider.clamp_value s v ≤ s.max_value :=
  ⟨le_max_left _ _, max_le h (min_le_left _ _)⟩

lemma x_to_value_mem (s : Slider.State) (winW winH x : ℤ)
    (h : s.min_value ≤ s.max_value) :
    s.min_value ≤ Slider.x_to_value s winW winH x ∧
    Slider.x_to_value s winW winH x ≤ s.max_value :=
  clamp_value_mem s _ h

lemma set_from_x_mem (s : Slider.State) (winW winH x current : ℤ)
    (hen : s.enabled = true) (h : s.min_value ≤ s.max_value) :
    s.min_value ≤ Slider.set_from_x s winW winH x current ∧
    Slider.set_from_x s winW winH x current ≤ s.max_value := by
  have hx := x_to_value_mem s winW winH x h
  by_cases hne : Slider.x_to_value s winW winH x ≠ current
  · simpa [Slider.set_from_x, hen, hne] using hx
  · push_neg at hne
    simp only [Slider.set_from_x, hen, Bool.not_true, Bool.false_eq_true, if_false, hne,
      ne_eq, not_true_eq_false]
    rw [← hne]
    simpa using hx

/-- C6: for every enabled slider with min < max and every pointer
x-coordinate delivered by a pointer-down or (while dragging) a
pointer-move event, the value stored in the bound variable is an integer
(the model computes in ZZ) lying in the closed interval [min, max]. -/
theorem slider_pointer_value_in_range (s : Slider.State) (winW winH x current : ℤ)
    (hen : s.enabled = true) (hlt : s.min_value < s.max_value) :
    (s.min_value ≤ (Slider.on_pointer_down s winW winH x current).2 ∧
      (Slider.on_pointer_down s winW winH x current).2 ≤ s.max_value) ∧
    (s.dragging = true →
      s.min_value ≤ Slider.on_pointer_move s winW winH x current ∧
      Slider.on_pointer_move s winW winH x current ≤ s.max_value) := by
  have hle := le_of_lt hlt
  constructor
  · rw [Slider.on_pointer_down, if_neg (by rw [hen]; simp)]
    exact set_from_x_mem { s with dragging := true } winW winH x current hen hle
  · intro hd
    rw [Slider.on_pointer_move, if_neg (by rw [hen, hd]; simp)]
    exact set_from_x_mem s winW winH x current hen hle

/-- C6 witness: the rate slider of the desktop app (range [80, 400]) at
width 200, pointer down at x = 50 with current value 170. -/
theorem slider_pointer_value_in_range_witness :
    ((⟨80, 400, true, true⟩ : Slider.State).min_value ≤
        (Slider.on_pointer_down ⟨80, 400, true, true⟩ 200 30 50 170).2 ∧
      (Slider.on_pointer_down ⟨80, 400, true, true⟩ 200 30 50 170).2 ≤
        (⟨80, 400, true, true⟩ : Slider.State).max_value) ∧
    ((⟨80, 400, true, true⟩ : Slider.State).dragging = true →
      (⟨80, 400, true, true⟩ : Slider.State).min_value ≤
          Slider.on_pointer_move ⟨80, 400, true, true⟩ 200 30 50 170 ∧
        Slider.on_pointer_move ⟨80, 400, true, true⟩ 200 30 50 170 ≤
          (⟨80, 400, true, true⟩ : Slider.State).max_value) :=
  slider_pointer_value_in_range ⟨80, 400, true, true⟩ 200 30 50 170 rfl (by norm_num)

/-! ## Claim C9: popup placement -/

/-- C9 counterexample: a dropdown at (0, 10) of size 40 x 34 with one
candidate inside a 100 x 90 host: the space below is insufficient (third
conjunct), yet the popup is not placed above the dropdown (its top is
clamped to the margin, overlapping the dropdown), and the popup (width
260, the enforced minimum) extends past the right edge of the host
because the minimum left margin takes priority over the right-edge
clamp. -/
theorem popup_placement_counterexample :
    10 + 34 + 4 + (popupGeom 0 10 40 34 100 90 1 10).height > 90 - 8 ∧
    ¬((popupGeom 0 10 40 34 100 90 1 10).y + (popupGeom 0 10 40 34 100 90 1 10).height ≤ 10) ∧
    ¬((popupGeom 0 10 40 34 100 90 1 10).x + (popupGeom 0 10 40 34 100 90 1 10).width ≤
        100 - 8) := by
  decide

/-- C9 amended: the popup is placed directly below the dropdown when the
host has enough vertical space; otherwise its top moves to
max 8 (dropdown_top - popup_height - 4), which is above the dropdown
whenever that expression clears the 8 px top margin; the x-position never
sits left of the 8 px minimum left margin, and the popup never extends
past the host right edge minus 8 px provided its width fits in the host
(width + 16 <= host width; for narrower hosts the left-margin clamp takes
priority); and the popup always opens with its scroll position reset to
the top. -/
theorem popup_placement (dx dy dw dh hw hh nvalues maxRows : ℤ) (s : DropdownState)
    (g : PopupGeom) (hg : g = popupGeom dx dy dw dh hw hh nvalues maxRows) :
    8 ≤ g.x ∧
    (dy + dh + 4 + g.height ≤ hh - 8 → g.y = dy + dh + 4) ∧
    (hh - 8 < dy + dh + 4 + g.height → g.y = max 8 (dy - g.height - 4)) ∧
    (g.width + 16 ≤ hw → g.x + g.width ≤ hw - 8) ∧
    (s.enabled = true → s.values.isEmpty = false → s.popup = none →
      (Dropdown.open_popup dx dy dw dh hw hh maxRows s).scroll = 0 ∧
      (Dropdown.open_popup dx dy dw dh hw hh maxRows s).popup =
        some (popupGeom dx dy dw dh hw hh (s.values.length : ℤ) maxRows)) := by
  subst hg
  refine ⟨?_, ?_, ?_, ?_, ?_⟩
  · unfold popupGeom
    dsimp only
    split_ifs <;> omega
  · unfold popupGeom
    dsimp only
    split_ifs <;> omega
  · unfold popupGeom
    dsimp only
    split_ifs <;> omega
  · unfold popupGeom
    dsimp only
    split_ifs <;> omega
  · intro he hv hp
    rw [Dropdown.open_popup, if_neg (by rw [he, hv, hp]; simp)]
    exact ⟨rfl, rfl⟩

/-- C9 witness: the scenario of the specification: a 600 px tall host
with the dropdown at y = 580 repositions the popup above the dropdown,
and opening resets the scroll position. -/
theorem popup_placement_witness :
    8 ≤ (popupGeom 0 580 260 34 600 600 3 10).x ∧
    (580 + 34 + 4 + (popupGeom 0 580 260 34 600 600 3 10).height ≤ 600 - 8 →
      (popupGeom 0 580 260 34 600 600 3 10).y = 580 + 34 + 4) ∧
    (600 - 8 < 580 + 34 + 4 + (popupGeom 0 580 260 34 600 600 3 10).height →
      (popupGeom 0 580 260 34 600 600 3 10).y =
        max 8 (580 - (popupGeom 0 580 260 34 600 600 3 10).height - 4)) ∧
    ((popupGeom 0 580 260 34 600 600 3 10).width + 16 ≤ 600 →
      (popupGeom 0 580 260 34 600 600 3 10).x +
          (popupGeom 0 580 260 34 600 600 3 10).width ≤ 600 - 8) ∧
    ((⟨["Daniel", "Samantha", "Alex"], "Samantha", true, false, false, none, false,
        1⟩ : DropdownState).enabled = true →
      (⟨["Daniel", "Samantha", "Alex"], "Samantha", true, false, false, none, false,
        1⟩ : DropdownState).values.isEmpty = false →
      (⟨["Daniel", "Samantha", "Alex"], "Samantha", true, false, false, none, false,
        1⟩ : DropdownState).popup = none →
      (Dropdown.open_popup 0 580 260 34 600 600 10
        ⟨["Daniel", "Samantha", "Alex"], "Samantha", true, false, false, none, false,
          1⟩).scroll = 0 ∧
      (Dropdown.open_popup 0 580 260 34 600 600 10
        ⟨["Daniel", "Samantha", "Alex"], "Samantha", true, false, false, none, false,
          1⟩).popup =
        some (popupGeom 0 580 260 34 600 600
          (((["Daniel", "Samantha", "Alex"] : List String).length : ℤ)) 10)) :=
  popup_placement 0 580 260 34 600 600 3 10
    ⟨["Daniel", "Samantha", "Alex"], "Samantha", true, false, false, none, false, 1⟩
    (popupGeom 0 580 260 34 600 600 3 10) rfl

/-! ## Claim C10: inset symmetry and bounds -/

/-- C10 counterexample: with radius 8 exceeding half the height 10 the
inset profile is not vertically symmetric: at row y = 3 the inset is
8 - sqrt 39 but at the mirrored row height - y = 7 it is 8 - sqrt 63,
because rows satisfying both corner-band conditions always take the top
branch. -/
theorem rounded_inset_asymmetric_counterexample :
    (0 : ℤ) ≤ 8 ∧ (0 : ℤ) ≤ 3 ∧ (3 : ℤ) ≤ 10 ∧
    rounded_inset 3 10 8 ≠ rounded_inset (10 - 3) 10 8 := by
  refine ⟨by norm_num, by norm_num, by norm_num, ?_⟩
  have e1 : rounded_inset 3 10 8 = 8 - Real.sqrt 39 := by
    unfold rounded_inset sqrtInset
    norm_num
  have e2 : rounded_inset (10 - 3) 10 8 = 8 - Real.sqrt 63 := by
    unfold rounded_inset sqrtInset
    norm_num
  have hlt : Real.sqrt 39 < Real.sqrt 63 := by
    apply Real.sqrt_lt_sqrt <;> norm_num
  rw [e1, e2]
  intro hEq
  have : Real.sqrt 39 = Real.sqrt 63 := by linarith
  exact absurd this (ne_of_lt hlt)

/-- C10 amended: the rounded-corner inset is vertically symmetric in the
regime in which the painter invokes it — the radius is clamped to at most
half the height — and for every radius >= 0, with no restriction on the
height or the row, the returned inset lies in the closed interval
[0, radius]. -/
theorem rounded_inset_symm_bounded (y height radius : ℤ) :
    (2 * radius ≤ height →
      rounded_inset y height radius = rounded_inset (height - y) height radius) ∧
    (0 ≤ radius →
      0 ≤ rounded_inset y height radius ∧
      rounded_inset y height radius ≤ (radius : ℝ)) :=
  ⟨fun hhr => rounded_inset_symm y height radius hhr,
   fun hr => ⟨rounded_inset_nonneg y height radius hr,
              rounded_inset_le y height radius hr⟩⟩

/-- C10 witness: a shape of height 4 with corner radius 2, row 1. -/
theorem rounded_inset_symm_bounded_witness :
    rounded_inset 1 4 2 = rounded_inset (4 - 1) 4 2 ∧
    (0 ≤ rounded_inset 1 4 2 ∧ rounded_inset 1 4 2 ≤ ((2 : ℤ) : ℝ)) :=
  ⟨(rounded_inset_symm_bounded 1 4 2).1 (by norm_num),
   (rounded_inset_symm_bounded 1 4 2).2 (by norm_num)⟩

end VocalCanvas
